import Mathlib

/-!
Shallow embedding of the repository `bioshape-lab/abn` (files
`src/neurometry/estimators/curvature/main.py` and
`src/neurometry/estimators/dimension/dimension.py`) and verification of
the specification's claims about it.

Conventions of the embedding:
* Python floats are modelled as exact rationals `ℚ` (square roots, which
  are the only irrational-producing operations used, land in `ℝ`).
* Python string formatting (f-strings) is modelled by `String` append;
  adjacent literal fragments are merged.
* `os.path.join dir name` is modelled as `dir ++ "/" ++ name`.
* Randomness (Python `random`, `torch`, CUDA) is modelled by an explicit
  RNG state threaded through the functions that touch it.
* A raised exception is modelled by an `Except`-style error value or a
  terminating trace event; `NaN` results of empty-slice reductions are
  modelled by `Option` (`none` = NaN).
-/

/-! ## Model dispatch in `create_model_and_train_test` (main.py lines 330-406) -/

/-- Python-level failure modes that the script can hit. -/
inductive PyError where
  /-- an explicit `raise ValueError(msg)` -/
  | valueError (msg : String)
  /-- an `UnboundLocalError`: a local name is read before any branch assigned it -/
  | unboundLocal (name : String)
deriving DecidableEq, Repr

/-- The three VAE classes imported by main.py. -/
inductive ModelKind where
  | NeuralVAE
  | ToroidalVAE
  | KleinBottleVAE
deriving DecidableEq, Repr

/-- RNG state visible to the script: Python's `random`, torch's CPU generator,
and torch's CUDA generators. -/
structure RNGState where
  python : Nat
  torch : Nat
  cuda : Nat
deriving DecidableEq, Repr

/-- Snapshot of the seeds in effect when a model is constructed; the CUDA field
is `none` when CUDA is unavailable (no CUDA generator exists). The snapshot
determines the model's initial parameters. -/
structure SeedSnapshot where
  python : Nat
  torch : Nat
  cuda : Option Nat
deriving DecidableEq, Repr

/-- Effect of `random.seed(0); torch.manual_seed(0);
if torch.cuda.is_available(): torch.cuda.manual_seed_all(0)` on the RNG state. -/
def seedResetZero (cudaAvailable : Bool) (s : RNGState) : RNGState :=
  { python := 0, torch := 0, cuda := if cudaAvailable then 0 else s.cuda }

/-- Seeds read at construction time from an RNG state. -/
def snapshotOf (cudaAvailable : Bool) (s : RNGState) : SeedSnapshot :=
  { python := s.python, torch := s.torch,
    cuda := if cudaAvailable then some s.cuda else none }

/-- The subset of the run configuration read by `create_model_and_train_test`. -/
structure Config where
  posterior_type : String
  latent_dim : Nat
  sftbeta : ℚ
  encoder_width : Nat
  encoder_depth : Nat
  decoder_width : Nat
  decoder_depth : Nat
  drop_out_p : ℚ
  lr : ℚ
  scheduler : Bool
  device : String
deriving DecidableEq, Repr

/-- Constructor arguments passed to the selected VAE class. `drop_out_p` is
`some _` only for `NeuralVAE`: the code passes `drop_out_p` to `NeuralVAE` but
not to `ToroidalVAE` or `KleinBottleVAE`. -/
structure VAEArgs where
  data_dim : Nat
  latent_dim : Nat
  sftbeta : ℚ
  encoder_width : Nat
  encoder_depth : Nat
  decoder_width : Nat
  decoder_depth : Nat
  posterior_type : String
  drop_out_p : Option ℚ
deriving DecidableEq, Repr

/-- A constructed model: which class was instantiated, with which arguments, on
which device, and the seed snapshot in effect at construction (which determines
the initial parameters). -/
structure Model where
  kind : ModelKind
  args : VAEArgs
  device : String
  initSeeds : SeedSnapshot
deriving DecidableEq, Repr

/-- Arguments of `torch.optim.Adam(model.parameters(), lr=config.lr, amsgrad=True)`. -/
structure AdamOptimizer where
  params_of : Model
  lr : ℚ
  amsgrad : Bool
deriving DecidableEq, Repr

/-- The only scheduler the code builds:
`torch.optim.lr_scheduler.ReduceLROnPlateau(optimizer, mode="min", factor=0.5)`. -/
structure PlateauScheduler where
  mode : String
  factor : ℚ
deriving DecidableEq, Repr

/-- Shared argument marshalling of the three dispatch branches of
`create_model_and_train_test`: seeds are reset to zero, then the class `kind`
is instantiated and moved to `config.device`. -/
def buildModel (kind : ModelKind) (config : Config) (data_dim : Nat)
    (cudaAvailable : Bool) (rng : RNGState) (dropOut : Option ℚ) : Model :=
  let rng' := seedResetZero cudaAvailable rng
  { kind := kind
    args :=
      { data_dim := data_dim
        latent_dim := config.latent_dim
        sftbeta := config.sftbeta
        encoder_width := config.encoder_width
        encoder_depth := config.encoder_depth
        decoder_width := config.decoder_width
        decoder_depth := config.decoder_depth
        posterior_type := config.posterior_type
        drop_out_p := dropOut }
    device := config.device
    initSeeds := snapshotOf cudaAvailable rng' }

/-- The `if/elif` string dispatch of `create_model_and_train_test` (main.py
lines 342-387): which model the branches assign, or `none` when no branch
matches and the local `model` stays unassigned. -/
def selectModel (config : Config) (data_dim : Nat) (cudaAvailable : Bool)
    (rng : RNGState) : Option Model :=
  if config.posterior_type = "gaussian" ∨ config.posterior_type = "hyperspherical" then
    some (buildModel ModelKind.NeuralVAE config data_dim cudaAvailable rng
      (some config.drop_out_p))
  else if config.posterior_type = "toroidal" then
    some (buildModel ModelKind.ToroidalVAE config data_dim cudaAvailable rng none)
  else if config.posterior_type = "klein_bottle" then
    some (buildModel ModelKind.KleinBottleVAE config data_dim cudaAvailable rng none)
  else
    none

/-- Embedding of `create_model_and_train_test` (main.py lines 330-406).
`data_dim` stands for `next(iter(train_loader.dataset[0][0].data.shape))`;
`train_test` is the library loop `train.train_test`, abstracted as a function
of everything the code passes to it; its result is returned unchanged.
When no branch of the string dispatch matches, the local `model` is never
assigned and reading it at `torch.optim.Adam(model.parameters(), ...)`
raises an unbound-local error. -/
def create_model_and_train_test {α : Type} (config : Config) (data_dim : Nat)
    (cudaAvailable : Bool) (rng : RNGState)
    (train_test : Model → AdamOptimizer → Option PlateauScheduler → Config → α) :
    Except PyError α :=
  match selectModel config data_dim cudaAvailable rng with
  | none => Except.error (PyError.unboundLocal "model")
  | some model =>
    let optimizer : AdamOptimizer := { params_of := model, lr := config.lr, amsgrad := true }
    let schedulerOpt : Option PlateauScheduler :=
      if config.scheduler then some { mode := "min", factor := 1/2 } else none
    Except.ok (train_test model optimizer schedulerOpt config)

/-! ## dimension.py: `skdim_dimension_estimation` (lines 19-55)

The estimation loop is instrumented with an explicit RNG-draw counter: each
call into the random data generators (`point_generator` and
`synthetic_neural_manifold`) consumes one fresh draw index, so the final
counter counts exactly how many random datasets were generated. -/

/-- Value of the `methods` parameter: either the literal string `"all"` or an
explicit list of estimator names. -/
inductive MethodsArg where
  | all
  | list (names : List String)

/-- Resolution of `methods == "all"`: `skdimAll` stands for the library listing
`[method for method in dir(skdim.id) if not method.startswith("_")]`. -/
def resolveMethods (skdimAll : List String) : MethodsArg → List String
  | MethodsArg.all => skdimAll
  | MethodsArg.list names => names

/-- Inner dimension loop of `skdim_dimension_estimation` for one estimator.
For each `dim`: the point cloud is generated (consuming draw `c`), the neural
manifold is derived from it (consuming draw `c + 1`), and then the trial loop
fits the estimator `num_trials` times on that same manifold. Returns the rows
of the `estimates` array and the final draw counter. -/
def skdimDimLoop {P M : Type} (pointGen : String → Nat → Nat → Nat → P)
    (mkManifold : Nat → P → Nat → String → ℚ → ℚ → M)
    (fitMean : String → M → ℚ)
    (manifold_type method_name : String) (num_trials num_points num_neurons : Nat)
    (poisson_multiplier ref_frequency : ℚ) (c : Nat) :
    List Nat → List (List ℚ) × Nat
  | [] => ([], c)
  | dim :: rest =>
    let points := pointGen manifold_type c dim num_points
    let neural_manifold :=
      mkManifold (c + 1) points num_neurons "sigmoid" poisson_multiplier ref_frequency
    let row := (List.range num_trials).map (fun _ => fitMean method_name neural_manifold)
    let tail := skdimDimLoop pointGen mkManifold fitMean manifold_type method_name
      num_trials num_points num_neurons poisson_multiplier ref_frequency (c + 2) rest
    (row :: tail.1, tail.2)

/-- Outer method loop of `skdim_dimension_estimation`: the returned association
list models the insertion order of the Python dict `id_estimates`. -/
def skdimMethodLoop {P M : Type} (pointGen : String → Nat → Nat → Nat → P)
    (mkManifold : Nat → P → Nat → String → ℚ → ℚ → M)
    (fitMean : String → M → ℚ)
    (manifold_type : String) (dimensions : List Nat)
    (num_trials num_points num_neurons : Nat)
    (poisson_multiplier ref_frequency : ℚ) (c : Nat) :
    List String → List (String × List (List ℚ)) × Nat
  | [] => ([], c)
  | method_name :: rest =>
    let rows := skdimDimLoop pointGen mkManifold fitMean manifold_type method_name
      num_trials num_points num_neurons poisson_multiplier ref_frequency c dimensions
    let tail := skdimMethodLoop pointGen mkManifold fitMean manifold_type dimensions
      num_trials num_points num_neurons poisson_multiplier ref_frequency rows.2 rest
    ((method_name, rows.1) :: tail.1, tail.2)

/-- Instrumented embedding of `skdim_dimension_estimation`: returns the
`id_estimates` association list together with the final RNG-draw counter
(initial counter 0). -/
def skdimInstr {P M : Type} (pointGen : String → Nat → Nat → Nat → P)
    (mkManifold : Nat → P → Nat → String → ℚ → ℚ → M)
    (fitMean : String → M → ℚ) (skdimAll : List String)
    (methods : MethodsArg) (dimensions : List Nat) (manifold_type : String)
    (num_trials num_points num_neurons : Nat)
    (poisson_multiplier ref_frequency : ℚ) :
    List (String × List (List ℚ)) × Nat :=
  skdimMethodLoop pointGen mkManifold fitMean manifold_type dimensions
    num_trials num_points num_neurons poisson_multiplier ref_frequency 0
    (resolveMethods skdimAll methods)

/-- Embedding of `noise_level = np.sqrt(1 / (ref_frequency * poisson_multiplier))`. -/
noncomputable def noiseLevel (ref_frequency poisson_multiplier : ℚ) : ℝ :=
  Real.sqrt ((1 / (ref_frequency * poisson_multiplier) : ℚ) : ℝ)

/-- Embedding of `skdim_dimension_estimation` (dimension.py lines 19-55): the
pair `(id_estimates, noise_level)` it returns. -/
noncomputable def skdim_dimension_estimation {P M : Type}
    (pointGen : String → Nat → Nat → Nat → P)
    (mkManifold : Nat → P → Nat → String → ℚ → ℚ → M)
    (fitMean : String → M → ℚ) (skdimAll : List String)
    (methods : MethodsArg) (dimensions : List Nat) (manifold_type : String)
    (num_trials num_points num_neurons : Nat)
    (poisson_multiplier ref_frequency : ℚ) :
    List (String × List (List ℚ)) × ℝ :=
  ((skdimInstr pointGen mkManifold fitMean skdimAll methods dimensions manifold_type
      num_trials num_points num_neurons poisson_multiplier ref_frequency).1,
   noiseLevel ref_frequency poisson_multiplier)

/-! ## dimension.py: `evaluate_pls_with_different_K` (lines 120-164) and
`evaluate_PCA_with_different_K` (lines 167-211)

Given the input data `(X, Y)` and the fixed split `random_state=42`, the body
of each loop iteration is a deterministic function of the component count `K`.
The oracles `r2Of` and `projOf` stand for those bodies: `r2Of X Y K` is the
uniform-average R^2 score of the multi-output regression fitted on the
K-component projection, and `projOf X Y K` is the projection `transform(X)`.
The loop accumulates both lists by appending, exactly as the Python code. -/

/-- Embedding of `evaluate_pls_with_different_K`: the accumulation loop over
`K_values` with `r2_scores.append(...)` and `projected_X.append(...)`. -/
def evaluate_pls_with_different_K {X Y Proj : Type}
    (r2Of : X → Y → Nat → ℚ) (projOf : X → Y → Nat → Proj)
    (Xv : X) (Yv : Y) (K_values : List Nat) : List ℚ × List Proj :=
  K_values.foldl
    (fun acc K => (acc.1 ++ [r2Of Xv Yv K], acc.2 ++ [projOf Xv Yv K]))
    ([], [])

/-- Embedding of `evaluate_PCA_with_different_K`: same accumulation shape as
the PLS variant, with PCA-specific oracles. -/
def evaluate_PCA_with_different_K {X Y Proj : Type}
    (r2Of : X → Y → Nat → ℚ) (projOf : X → Y → Nat → Proj)
    (Xv : X) (Yv : Y) (K_values : List Nat) : List ℚ × List Proj :=
  K_values.foldl
    (fun acc K => (acc.1 ++ [r2Of Xv Yv K], acc.2 ++ [projOf Xv Yv K]))
    ([], [])

/-! ## main.py: `curvature_compute_plot_log` (lines 441-539)

The persisted artifacts of `curvature_compute_plot_log` are modelled as a list
of `(path, table)` pairs, a table being an ordered list of named columns whose
cells are `Option ℝ` (`none` models the float `NaN`). The grid, geodesic
distance and curvature vectors returned by the library calls
`evaluate.compute_curvature_learned` / `compute_curvature_true` are inputs of
the embedding; the 1-D grid (datasets with a 1-D latent space) and the 2-D
grid (datasets with a 2-D latent space) are passed as separate arguments `z1`
and `z2` because the Python array changes shape by branch. -/

/-- The double-precision value of `np.pi` (exact dyadic rational). -/
def npPi : ℚ := 884279719003555 / 281474976710656

/-- Floor of a rational, via flooring integer division. -/
def ratFloorZ (q : ℚ) : ℤ := Int.fdiv q.num q.den

/-- Python/numpy `%` on floats: `x % y = x - y * floor(x / y)` (result has the
sign of the divisor). -/
def pyMod (x y : ℚ) : ℚ := x - y * ((ratFloorZ (x / y) : ℤ) : ℚ)

/-- The angular window of main.py line 477:
`np.abs((one_z_grid - labels["angles"]) % 2 * np.pi) < 0.2`. By Python operator
precedence the reduction is `abs(((one_z_grid - angles) % 2) * pi) < 0.2`. -/
def windowSel (one_z_grid angle : ℚ) : Bool :=
  decide (|pyMod (one_z_grid - angle) 2 * npPi| < 2/10)

/-- One row of the `labels` dataframe of the experimental dataset: the columns
read by `curvature_compute_plot_log`. -/
structure LabelRow where
  angles : ℚ
  velocities : ℚ
deriving DecidableEq, Repr

/-- Mean over the non-NaN entries (`np.nanmean`); over an empty selection the
result is NaN, modelled as `none`. The label velocities are plain numbers, so
on nonempty input this is the ordinary mean. -/
def nanmean (l : List ℚ) : Option ℝ :=
  if l.isEmpty then none else some ((l.sum / l.length : ℚ) : ℝ)

/-- Insertion into a sorted list (helper for the median). -/
def insertSorted (x : ℚ) : List ℚ → List ℚ
  | [] => [x]
  | y :: ys => if x ≤ y then x :: y :: ys else y :: insertSorted x ys

/-- Insertion sort of a list of rationals. -/
def sortQ (l : List ℚ) : List ℚ := l.foldr insertSorted []

/-- Median over the non-NaN entries (`np.nanmedian`); NaN (`none`) on empty
input, middle element or mean of the two middle elements otherwise. -/
def nanmedian (l : List ℚ) : Option ℝ :=
  if l.isEmpty then none
  else
    let s := sortQ l
    let n := l.length
    if n % 2 = 1 then some ((s.getD (n / 2) 0 : ℚ) : ℝ)
    else some (((s.getD (n / 2 - 1) 0 + s.getD (n / 2) 0) / 2 : ℚ) : ℝ)

/-- Standard deviation over the non-NaN entries (`np.nanstd`); NaN (`none`) on
empty input, square root of the population variance otherwise. -/
noncomputable def nanstd (l : List ℚ) : Option ℝ :=
  if l.isEmpty then none
  else
    let m : ℚ := l.sum / l.length
    some (Real.sqrt (((l.map (fun x => (x - m) ^ 2)).sum / l.length : ℚ) : ℝ))

/-- The five velocity statistics appended per grid point (main.py lines
475-487): mean, median and std are the nan-reductions of the selected
velocities (NaN on an empty selection), while min and max use the sentinel `-1`
when `len(selected_labels) == 0` and `np.nanmin` / `np.nanmax` otherwise. -/
structure VelocityStats where
  mean : Option ℝ
  median : Option ℝ
  std : Option ℝ
  min : ℚ
  max : ℚ

/-- Velocity statistics of one latent grid point on the experimental dataset:
the labels inside the angular window around `one_z_grid` are selected and the
five statistics of their velocities are computed. -/
noncomputable def velocityStatsAt (labels : List LabelRow) (one_z_grid : ℚ) :
    VelocityStats :=
  let sel := (labels.filter (fun r => windowSel one_z_grid r.angles)).map
    (fun r => r.velocities)
  { mean := nanmean sel
    median := nanmedian sel
    std := nanstd sel
    min := match sel with | [] => -1 | x :: xs => xs.foldl min x
    max := match sel with | [] => -1 | x :: xs => xs.foldl max x }

/-- Lift a rational column to table cells. -/
def cellsOfQ (l : List ℚ) : List (Option ℝ) := l.map (fun q => some ((q : ℚ) : ℝ))

/-- The five velocity columns added to the learned profile for the
experimental dataset, iterating over the `z_grid` column. -/
noncomputable def velocityCols (labels : List LabelRow) (z1 : List ℚ) :
    List (String × List (Option ℝ)) :=
  [("mean_velocities", z1.map (fun z => (velocityStatsAt labels z).mean)),
   ("median_velocities", z1.map (fun z => (velocityStatsAt labels z).median)),
   ("std_velocities", z1.map (fun z => (velocityStatsAt labels z).std)),
   ("min_velocities", z1.map (fun z => some (((velocityStatsAt labels z).min : ℚ) : ℝ))),
   ("max_velocities", z1.map (fun z => some (((velocityStatsAt labels z).max : ℚ) : ℝ)))]

/-- The `curv_norm_learned_profile` dataframe (main.py lines 453-493): base
columns, then the grid column(s) chosen by dataset name, then the velocity
columns for the experimental dataset. -/
noncomputable def curvNormLearnedProfile (dataset_name : String)
    (geodesic_dist curv_norms_learned z1 : List ℚ) (z2 : List (ℚ × ℚ))
    (labels : List LabelRow) : List (String × List (Option ℝ)) :=
  [("geodesic_dist", cellsOfQ geodesic_dist),
   ("curv_norm_learned", cellsOfQ curv_norms_learned)]
  ++ (if dataset_name = "s1_synthetic" ∨ dataset_name = "experimental" ∨
        dataset_name = "three_place_cells_synthetic" then
        [("z_grid", cellsOfQ z1)]
      else if dataset_name = "s2_synthetic" ∨ dataset_name = "t2_synthetic" ∨
        dataset_name = "grid_cells" then
        [("z_grid_theta", cellsOfQ (z2.map Prod.fst)),
         ("z_grid_phi", cellsOfQ (z2.map Prod.snd))]
      else [])
  ++ (if dataset_name = "experimental" then velocityCols labels z1 else [])

/-- The `curv_norm_true_profile` dataframe (main.py lines 521-532), produced
only for the three fully synthetic datasets. -/
def curvNormTrueProfile (dataset_name : String)
    (geodesic_dist curv_norms_true z1 : List ℚ) (z2 : List (ℚ × ℚ)) :
    List (String × List (Option ℝ)) :=
  [("geodesic_dist", cellsOfQ geodesic_dist),
   ("curv_norm_true", cellsOfQ curv_norms_true)]
  ++ (if dataset_name = "s1_synthetic" then [("z_grid", cellsOfQ z1)]
      else [("z_grid_theta", cellsOfQ (z2.map Prod.fst)),
            ("z_grid_phi", cellsOfQ (z2.map Prod.snd))])

/-- CSV persistence effect of `curvature_compute_plot_log` (main.py lines
441-539): the learned profile is always written to
`<dir>/<run_name>_curv_norm_learned_profile.csv`; for the three fully
synthetic datasets the true profile is additionally written to
`<dir>/<run_name>_curv_norm_true_profile.csv` (`run_name` is the value of
`config.results_prefix`, which `main_run` sets to the run name). The learned
data `(z1, z2, geodesic_dist, curv_norms_learned)` comes from
`evaluate.compute_curvature_learned`, the true data from
`evaluate.compute_curvature_true`. -/
noncomputable def curvature_compute_plot_log
    (curvature_profiles_dir run_name dataset_name : String)
    (geodesic_dist curv_norms_learned z1 : List ℚ) (z2 : List (ℚ × ℚ))
    (labels : List LabelRow)
    (geodesic_dist_true curv_norms_true z1T : List ℚ) (z2T : List (ℚ × ℚ)) :
    List (String × List (String × List (Option ℝ))) :=
  [(curvature_profiles_dir ++ "/" ++ run_name ++ "_curv_norm_learned_profile.csv",
    curvNormLearnedProfile dataset_name geodesic_dist curv_norms_learned z1 z2 labels)]
  ++ (if dataset_name = "s1_synthetic" ∨ dataset_name = "s2_synthetic" ∨
        dataset_name = "t2_synthetic" then
        [(curvature_profiles_dir ++ "/" ++ run_name ++ "_curv_norm_true_profile.csv",
          curvNormTrueProfile dataset_name geodesic_dist_true curv_norms_true z1T z2T)]
      else [])

/-! ## main.py: `main` (lines 37-144), sweep names, and `main_run` naming

The enumerated parameter values come from `default_config` (a configuration
module outside `src/`); they are inputs of the embedding. Parameter values
that only flow into f-strings are modelled by their rendered string
(`str(value)` in Python); integer parameters that are also compared
arithmetically (`embedding_dim`, `n_cells`) are modelled as `Nat` and rendered
with `Nat.repr`. -/

/-- One experimental parameter tuple enumerated by `main` (the itertools
product of `expt_id`, `timestep_microsec`, `smooth`, `select_gain_1`). -/
structure ExpTuple where
  expt_id : String
  timestep_microsec : String
  smooth : Bool
  select_gain_1 : Bool
deriving DecidableEq, Repr

/-- One synthetic parameter tuple enumerated by `main` (the itertools product
of `n_times`, `embedding_dim`, `geodesic_distortion_amp`, `noise_var`). -/
structure SynTuple where
  n_times : Nat
  embedding_dim : Nat
  geodesic_distortion_amp : String
  noise_var : String
deriving DecidableEq, Repr

/-- One grid-cells parameter tuple enumerated by `main` (the itertools product
of the seven grid parameters). -/
structure GridTuple where
  grid_scale : String
  arena_dims : String
  n_cells : Nat
  grid_orientation_mean : String
  grid_orientation_std : String
  field_width : String
  resolution : String
deriving DecidableEq, Repr

/-- Sweep name of an experimental tuple (main.py lines 59-63):
`f"experimental_{expt_id}"` plus `"_gain_1"` or `"_other_gain"`. -/
def expSweepName (t : ExpTuple) : String :=
  if t.select_gain_1 then "experimental_" ++ t.expt_id ++ "_gain_1"
  else "experimental_" ++ t.expt_id ++ "_other_gain"

/-- Sweep name of a synthetic tuple (main.py lines 95-96):
`f"{dataset_name}_noise_var_{noise_var}_embedding_dim_{embedding_dim}"`. -/
def synSweepName (dataset_name : String) (t : SynTuple) : String :=
  dataset_name ++ "_noise_var_" ++ t.noise_var ++ "_embedding_dim_" ++
    Nat.repr t.embedding_dim

/-- Sweep name of a grid-cells tuple (main.py lines 124-125):
`f"grid_cells_orientation_std_{grid_orientation_std}_ncells_{n_cells}"`. -/
def gridSweepName (t : GridTuple) : String :=
  "grid_cells_orientation_std_" ++ t.grid_orientation_std ++ "_ncells_" ++
    Nat.repr t.n_cells

/-- The parameter lists of `default_config` used by `main`'s enumeration. -/
structure DefaultConfig where
  dataset_name : List String
  expt_id : List String
  timestep_microsec : List String
  smooth : List Bool
  select_gain_1 : List Bool
  n_times : List Nat
  embedding_dim : List Nat
  geodesic_distortion_amp : List String
  noise_var : List String
  grid_scale : List String
  arena_dims : List String
  n_cells : List Nat
  grid_orientation_mean : List String
  grid_orientation_std : List String
  field_width : List String
  resolution : List String

/-- The experimental tuples of `itertools.product`, in enumeration order. -/
def expTuples (cfg : DefaultConfig) : List ExpTuple :=
  cfg.expt_id.flatMap fun e =>
    cfg.timestep_microsec.flatMap fun ts =>
      cfg.smooth.flatMap fun sm =>
        cfg.select_gain_1.map fun g =>
          { expt_id := e, timestep_microsec := ts, smooth := sm, select_gain_1 := g }

/-- The synthetic tuples of `itertools.product`, in enumeration order. -/
def synTuples (cfg : DefaultConfig) : List SynTuple :=
  cfg.n_times.flatMap fun nt =>
    cfg.embedding_dim.flatMap fun ed =>
      cfg.geodesic_distortion_amp.flatMap fun amp =>
        cfg.noise_var.map fun nv =>
          { n_times := nt, embedding_dim := ed,
            geodesic_distortion_amp := amp, noise_var := nv }

/-- The grid-cells tuples of `itertools.product`, in enumeration order. -/
def gridTuples (cfg : DefaultConfig) : List GridTuple :=
  cfg.grid_scale.flatMap fun gs =>
    cfg.arena_dims.flatMap fun ad =>
      cfg.n_cells.flatMap fun nc =>
        cfg.grid_orientation_mean.flatMap fun gom =>
          cfg.grid_orientation_std.flatMap fun gos =>
            cfg.field_width.flatMap fun fw =>
              cfg.resolution.map fun r =>
                { grid_scale := gs, arena_dims := ad, n_cells := nc,
                  grid_orientation_mean := gom, grid_orientation_std := gos,
                  field_width := fw, resolution := r }

/-- Observable events of `main`: launching a sweep (`main_sweep` call with the
given sweep name) or raising a `ValueError`. -/
inductive Event where
  | sweep (name : String)
  | valueError (msg : String)
deriving DecidableEq, Repr

/-- Whether an event is the raised error. -/
def Event.isError : Event → Bool
  | Event.sweep _ => false
  | Event.valueError _ => true

/-- The validation condition of main.py lines 87-90: the dataset is
`s2_synthetic` or `t2_synthetic` and `embedding_dim <= 2`. -/
def synBadDim (dataset_name : String) (t : SynTuple) : Bool :=
  (dataset_name == "s2_synthetic" || dataset_name == "t2_synthetic") &&
    t.embedding_dim ≤ 2

/-- Message of the raised error (main.py lines 91-93). -/
def synErrMsg (t : SynTuple) : String :=
  "Manifold cannot be embedded in " ++ Nat.repr t.embedding_dim ++ " dimensions"

/-- The synthetic branch of `main`: each tuple either trips the validation
(which raises, ending the whole program: the `continue` after the `raise` is
unreachable) or launches its sweep. -/
def synTrace (dataset_name : String) : List SynTuple → List Event
  | [] => []
  | t :: rest =>
    if synBadDim dataset_name t then [Event.valueError (synErrMsg t)]
    else Event.sweep (synSweepName dataset_name t) :: synTrace dataset_name rest

/-- Events produced by one iteration of `main`'s dataset loop. -/
def branchTrace (cfg : DefaultConfig) (dataset_name : String) : List Event :=
  if dataset_name = "experimental" then
    (expTuples cfg).map fun t => Event.sweep (expSweepName t)
  else if dataset_name = "s1_synthetic" ∨ dataset_name = "s2_synthetic" ∨
      dataset_name = "t2_synthetic" then
    synTrace dataset_name (synTuples cfg)
  else if dataset_name = "grid_cells" then
    (gridTuples cfg).map fun t => Event.sweep (gridSweepName t)
  else if dataset_name = "three_place_cells_synthetic" then
    [Event.sweep dataset_name]
  else []

/-- Whether a trace contains the raised error. -/
def hasError (l : List Event) : Bool := l.any Event.isError

/-- Dataset loop of `main`: a raised error propagates and aborts the
remaining datasets. -/
def mainGo (cfg : DefaultConfig) : List String → List Event
  | [] => []
  | ds :: rest =>
    let e := branchTrace cfg ds
    if hasError e then e else e ++ mainGo cfg rest

/-- Trace of `main` (main.py lines 37-144) over the `default_config`
parameter lists. -/
def mainTrace (cfg : DefaultConfig) : List Event := mainGo cfg cfg.dataset_name

/-- Run name assigned inside `main_run` (main.py line 261):
`"run_" + wandb.run.id + "_" + sweep_name`. The wandb run id is assigned by
the wandb service at `wandb.init()`, not derived from the configuration. -/
def runName (run_id sweep_name : String) : String :=
  "run_" ++ run_id ++ "_" ++ sweep_name

/-- Path of the per-run JSON config (main.py line 277):
`os.path.join(default_config.configs_dir, run_name + ".json")`. -/
def configJsonPath (configs_dir run_name : String) : String :=
  configs_dir ++ "/" ++ run_name ++ ".json"

/-- Path of the serialized model object (main.py lines 420-422):
`os.path.join(default_config.trained_models_dir, f"{config.results_prefix}_model.pt")`;
`results_prefix` equals the run name. -/
def modelPath (trained_models_dir run_name : String) : String :=
  trained_models_dir ++ "/" ++ run_name ++ "_model.pt"

/-- Path of the serialized state dictionary (main.py lines 424-427). -/
def modelStateDictPath (trained_models_dir run_name : String) : String :=
  trained_models_dir ++ "/" ++ run_name ++ "_model_state_dict.pth"

/-- Path of the learned curvature-profile CSV (main.py lines 496-501). -/
def curvLearnedCsvPath (curvature_profiles_dir run_name : String) : String :=
  curvature_profiles_dir ++ "/" ++ run_name ++ "_curv_norm_learned_profile.csv"

/-- Path of the true curvature-profile CSV (main.py lines 534-539). -/
def curvTrueCsvPath (curvature_profiles_dir run_name : String) : String :=
  curvature_profiles_dir ++ "/" ++ run_name ++ "_curv_norm_true_profile.csv"

/-- A string none of whose characters is an underscore (true of the rendered
numeric parameter values and of wandb run ids, which are alphanumeric). -/
def underscoreFree (s : String) : Bool := s.data.all (fun c => c != '_')

/-- Concrete `default_config` parameter lists used to exhibit sweep-name
collisions among tuples enumerated by `main`. -/
def cfgC1 : DefaultConfig :=
  { dataset_name := ["experimental", "s1_synthetic"]
    expt_id := ["expt34"]
    timestep_microsec := ["1000000", "2000000"]
    smooth := [true]
    select_gain_1 := [true]
    n_times := [100, 200]
    embedding_dim := [3]
    geodesic_distortion_amp := ["0.4"]
    noise_var := ["0.001"]
    grid_scale := ["1.0"]
    arena_dims := ["[4, 4]"]
    n_cells := [25]
    grid_orientation_mean := ["0.0"]
    grid_orientation_std := ["3.0"]
    field_width := ["0.05"]
    resolution := ["50"] }

/-- First experimental tuple of the collision exhibited for C1. -/
def expT1 : ExpTuple :=
  { expt_id := "expt34", timestep_microsec := "1000000", smooth := true,
    select_gain_1 := true }

/-- Second experimental tuple of the collision exhibited for C1: same
`expt_id` and `select_gain_1`, different `timestep_microsec`. -/
def expT2 : ExpTuple :=
  { expt_id := "expt34", timestep_microsec := "2000000", smooth := true,
    select_gain_1 := true }

/-- First synthetic tuple of the collision exhibited for C1. -/
def synT1 : SynTuple :=
  { n_times := 100, embedding_dim := 3, geodesic_distortion_amp := "0.4",
    noise_var := "0.001" }

/-- Second synthetic tuple of the collision exhibited for C1: same
`noise_var` and `embedding_dim`, different `n_times`. -/
def synT2 : SynTuple :=
  { n_times := 200, embedding_dim := 3, geodesic_distortion_amp := "0.4",
    noise_var := "0.001" }

/-- Concrete `default_config` parameter lists whose s2_synthetic enumeration
contains an embedding dimension rejected by the validation of main.py
lines 87-93. -/
def cfgC3 : DefaultConfig :=
  { dataset_name := ["experimental", "s2_synthetic"]
    expt_id := ["expt34"]
    timestep_microsec := ["1000000"]
    smooth := [true]
    select_gain_1 := [false]
    n_times := [100]
    embedding_dim := [2]
    geodesic_distortion_amp := ["0.4"]
    noise_var := ["0.001"]
    grid_scale := ["1.0"]
    arena_dims := ["[4, 4]"]
    n_cells := [25]
    grid_orientation_mean := ["0.0"]
    grid_orientation_std := ["3.0"]
    field_width := ["0.05"]
    resolution := ["50"] }

/-- Closed form of the inner dimension loop of `skdim_dimension_estimation`:
for the dimension at offset `i` of the list, the point cloud is generated from
draw `c + 2 i`, the neural manifold from draw `c + 2 i + 1`, and the row is
`num_trials` copies of the estimate obtained by fitting the estimator to that
single manifold. -/
def skdimRowsSpec {P M : Type} (pointGen : String → Nat → Nat → Nat → P)
    (mkManifold : Nat → P → Nat → String → ℚ → ℚ → M)
    (fitMean : String → M → ℚ)
    (manifold_type method_name : String) (num_trials num_points num_neurons : Nat)
    (poisson_multiplier ref_frequency : ℚ) (c : Nat) :
    List Nat → List (List ℚ)
  | [] => []
  | dim :: rest =>
    List.replicate num_trials (fitMean method_name
      (mkManifold (c + 1) (pointGen manifold_type c dim num_points) num_neurons
        "sigmoid" poisson_multiplier ref_frequency)) ::
    skdimRowsSpec pointGen mkManifold fitMean manifold_type method_name num_trials
      num_points num_neurons poisson_multiplier ref_frequency (c + 2) rest

/-- Closed form of the outer method loop of `skdim_dimension_estimation`: one
association entry per method name, each with its block of dimension rows; each
method consumes `2 * dimensions.length` RNG draws. -/
def skdimAssocSpec {P M : Type} (pointGen : String → Nat → Nat → Nat → P)
    (mkManifold : Nat → P → Nat → String → ℚ → ℚ → M)
    (fitMean : String → M → ℚ)
    (manifold_type : String) (dimensions : List Nat)
    (num_trials num_points num_neurons : Nat)
    (poisson_multiplier ref_frequency : ℚ) (c : Nat) :
    List String → List (String × List (List ℚ))
  | [] => []
  | method_name :: rest =>
    (method_name, skdimRowsSpec pointGen mkManifold fitMean manifold_type
      method_name num_trials num_points num_neurons poisson_multiplier
      ref_frequency c dimensions) ::
    skdimAssocSpec pointGen mkManifold fitMean manifold_type dimensions
      num_trials num_points num_neurons poisson_multiplier ref_frequency
      (c + 2 * dimensions.length) rest

/-- A concrete run configuration with the `gaussian` posterior tag. -/
def cfgGauss : Config :=
  { posterior_type := "gaussian", latent_dim := 2, sftbeta := 4,
    encoder_width := 400, encoder_depth := 4, decoder_width := 400,
    decoder_depth := 4, drop_out_p := 0, lr := 1, scheduler := false,
    device := "cpu" }

/-- A concrete run configuration with the `toroidal` posterior tag. -/
def cfgToroidal : Config :=
  { posterior_type := "toroidal", latent_dim := 2, sftbeta := 4,
    encoder_width := 400, encoder_depth := 4, decoder_width := 400,
    decoder_depth := 4, drop_out_p := 0, lr := 1, scheduler := false,
    device := "cpu" }

/-- A concrete run configuration whose posterior tag matches no dispatch
branch. -/
def cfgNormal : Config :=
  { posterior_type := "normal", latent_dim := 2, sftbeta := 4,
    encoder_width := 400, encoder_depth := 4, decoder_width := 400,
    decoder_depth := 4, drop_out_p := 0, lr := 1, scheduler := true,
    device := "cpu" }

/-! ## Helper lemmas -/

/-- Splitting an underscore-separated concatenation at the first underscore:
if neither field contains an underscore, the fields and the tails agree. -/
lemma splitAtMark (a : List Char) : ∀ (b r s : List Char),
    (∀ c ∈ a, c ≠ '_') → (∀ c ∈ b, c ≠ '_') →
    a ++ '_' :: r = b ++ '_' :: s → a = b ∧ r = s := by
  induction a with
  | nil =>
    intro b r s _ hb h
    cases b with
    | nil => simpa using h
    | cons y ys =>
      simp only [List.nil_append, List.cons_append, List.cons.injEq] at h
      exact absurd h.1.symm (hb y (by simp))
  | cons x xs ih =>
    intro b r s ha hb h
    cases b with
    | nil =>
      simp only [List.cons_append, List.nil_append, List.cons.injEq] at h
      exact absurd h.1 (ha x (by simp))
    | cons y ys =>
      simp only [List.cons_append, List.cons.injEq] at h
      obtain ⟨hxy, h2⟩ := h
      obtain ⟨h3, h4⟩ :=
        ih ys r s (fun c hc => ha c (by simp [hc])) (fun c hc => hb c (by simp [hc])) h2
      exact ⟨by rw [hxy, h3], h4⟩

/-- Unfolds the Boolean `underscoreFree` check into its membership form. -/
lemma underscoreFree_spec {s : String} (h : underscoreFree s = true) :
    ∀ c ∈ s.data, c ≠ '_' := by
  intro c hc
  have := List.all_eq_true.mp h c hc
  simpa using this


/-- When two concatenations end in nonempty suffixes with different last
elements, they are different lists. -/
lemma lastCharNe {l₁ l₂ s₁ s₂ : List Char} (h₁ : s₁ ≠ []) (h₂ : s₂ ≠ [])
    (hne : s₁.getLast? ≠ s₂.getLast?) (h : l₁ ++ s₁ = l₂ ++ s₂) : False := by
  apply hne
  calc s₁.getLast? = (l₁ ++ s₁).getLast? :=
        (List.getLast?_append_of_ne_nil _ h₁).symm
    _ = (l₂ ++ s₂).getLast? := by rw [h]
    _ = s₂.getLast? := List.getLast?_append_of_ne_nil _ h₂

/-! ## Claim C1 -/

/-- C1 counterexample: the map from enumerated parameter tuples to sweep names
is not injective. For `cfgC1`, `main` enumerates the two distinct experimental
tuples `expT1` and `expT2` (differing in `timestep_microsec`) with the same
sweep name, and the two distinct s1_synthetic tuples `synT1` and `synT2`
(differing in `n_times`) with the same sweep name: the name ignores
`timestep_microsec` and `smooth` (respectively `n_times` and
`geodesic_distortion_amp`). -/
theorem C1_sweep_names_not_injective :
    (expT1 ≠ expT2 ∧ expT1 ∈ expTuples cfgC1 ∧ expT2 ∈ expTuples cfgC1 ∧
      expSweepName expT1 = expSweepName expT2) ∧
    (synT1 ≠ synT2 ∧ synT1 ∈ synTuples cfgC1 ∧ synT2 ∈ synTuples cfgC1 ∧
      synSweepName "s1_synthetic" synT1 = synSweepName "s1_synthetic" synT2) := by
  decide

/-- C1 (amended): the sweep name is determined by, and (given that the
rendered numeric values contain no underscore) injectively determined by, only
a sub-tuple of the enumerated parameters: `(expt_id, select_gain_1)` for the
experimental branch, `(noise_var, embedding_dim)` for the synthetic branches,
`(grid_orientation_std, n_cells)` for the grid-cells branch; the remaining
tuple components do not affect the name, so the map from full parameter
tuples to sweep names is not injective. -/
theorem C1_sweep_name_subtuple :
    (∀ t₁ t₂ : ExpTuple, t₁.expt_id = t₂.expt_id →
      t₁.select_gain_1 = t₂.select_gain_1 → expSweepName t₁ = expSweepName t₂) ∧
    (∀ t₁ t₂ : ExpTuple, expSweepName t₁ = expSweepName t₂ →
      t₁.expt_id = t₂.expt_id ∧ t₁.select_gain_1 = t₂.select_gain_1) ∧
    (∀ (ds : String) (t₁ t₂ : SynTuple), t₁.noise_var = t₂.noise_var →
      t₁.embedding_dim = t₂.embedding_dim →
      synSweepName ds t₁ = synSweepName ds t₂) ∧
    (∀ (ds : String) (t₁ t₂ : SynTuple), underscoreFree t₁.noise_var = true →
      underscoreFree t₂.noise_var = true →
      synSweepName ds t₁ = synSweepName ds t₂ →
      t₁.noise_var = t₂.noise_var ∧
        Nat.repr t₁.embedding_dim = Nat.repr t₂.embedding_dim) ∧
    (∀ t₁ t₂ : GridTuple, t₁.grid_orientation_std = t₂.grid_orientation_std →
      t₁.n_cells = t₂.n_cells → gridSweepName t₁ = gridSweepName t₂) ∧
    (∀ t₁ t₂ : GridTuple, underscoreFree t₁.grid_orientation_std = true →
      underscoreFree t₂.grid_orientation_std = true →
      gridSweepName t₁ = gridSweepName t₂ →
      t₁.grid_orientation_std = t₂.grid_orientation_std ∧
        Nat.repr t₁.n_cells = Nat.repr t₂.n_cells) := by
  refine ⟨?_, ?_, ?_, ?_, ?_, ?_⟩
  · intro t₁ t₂ h1 h2
    simp only [expSweepName, h1, h2]
  · intro t₁ t₂ h
    unfold expSweepName at h
    cases hg₁ : t₁.select_gain_1 <;> cases hg₂ : t₂.select_gain_1 <;>
      rw [hg₁, hg₂] at h
    · rw [if_neg Bool.false_ne_true, if_neg Bool.false_ne_true] at h
      have hd := congrArg String.data h
      simp only [String.data_append] at hd
      have h2 := List.append_cancel_left (List.append_cancel_right hd)
      exact ⟨String.ext h2, rfl⟩
    · exfalso
      rw [if_neg Bool.false_ne_true, if_pos rfl] at h
      have hd := congrArg String.data h
      simp only [String.data_append, List.append_assoc] at hd
      have h2 := List.append_cancel_left hd
      exact lastCharNe (by decide) (by decide) (by decide) h2
    · exfalso
      rw [if_pos rfl, if_neg Bool.false_ne_true] at h
      have hd := congrArg String.data h
      simp only [String.data_append, List.append_assoc] at hd
      have h2 := List.append_cancel_left hd
      exact lastCharNe (by decide) (by decide) (by decide) h2
    · rw [if_pos rfl, if_pos rfl] at h
      have hd := congrArg String.data h
      simp only [String.data_append] at hd
      have h2 := List.append_cancel_left (List.append_cancel_right hd)
      exact ⟨String.ext h2, rfl⟩
  · intro ds t₁ t₂ h1 h2
    simp only [synSweepName, h1, h2]
  · intro ds t₁ t₂ hu₁ hu₂ h
    unfold synSweepName at h
    have hd := congrArg String.data h
    simp only [String.data_append, List.append_assoc] at hd
    have h2 := List.append_cancel_left (List.append_cancel_left hd)
    simp only [show ("_embedding_dim_" : String).data =
        '_' :: ("embedding_dim_" : String).data from rfl,
      List.cons_append] at h2
    obtain ⟨h3, h4⟩ := splitAtMark t₁.noise_var.data t₂.noise_var.data _ _
      (underscoreFree_spec hu₁) (underscoreFree_spec hu₂) h2
    have h5 : (Nat.repr t₁.embedding_dim).data = (Nat.repr t₂.embedding_dim).data := by
      simpa using h4
    exact ⟨String.ext h3, String.ext h5⟩
  · intro t₁ t₂ h1 h2
    simp only [gridSweepName, h1, h2]
  · intro t₁ t₂ hu₁ hu₂ h
    unfold gridSweepName at h
    have hd := congrArg String.data h
    simp only [String.data_append, List.append_assoc] at hd
    have h2 := List.append_cancel_left hd
    simp only [show ("_ncells_" : String).data =
        '_' :: ("ncells_" : String).data from rfl,
      List.cons_append] at h2
    obtain ⟨h3, h4⟩ := splitAtMark t₁.grid_orientation_std.data
      t₂.grid_orientation_std.data _ _
      (underscoreFree_spec hu₁) (underscoreFree_spec hu₂) h2
    have h5 : (Nat.repr t₁.n_cells).data = (Nat.repr t₂.n_cells).data := by
      simpa using h4
    exact ⟨String.ext h3, String.ext h5⟩

/-- C1 witness: the injectivity part of the amended theorem applied at two
concrete synthetic tuples with equal name-determining sub-tuples. -/
theorem C1_sweep_name_subtuple_witness :
    ("0.001" : String) = "0.001" ∧ Nat.repr 3 = Nat.repr 3 :=
  C1_sweep_name_subtuple.2.2.2.1 "s1_synthetic" synT1
    { n_times := 200, embedding_dim := 3, geodesic_distortion_amp := "0.7",
      noise_var := "0.001" }
    (by decide) (by decide) rfl

/-! ## Claim C2 -/

/-- C2 counterexample: the run name is not a function of the run
configuration. Two executions of `main_run` with the same configuration
(hence the same sweep name `"experimental_expt34_gain_1"`) but different
wandb-assigned run ids get different run names, so no function of the
configuration alone yields the run name. -/
theorem C2_run_name_not_config_determined :
    runName "1a2b3c4d" "experimental_expt34_gain_1" ≠
      runName "5e6f7a8b" "experimental_expt34_gain_1" := by
  decide

/-- C2 (amended): the run name is `"run_" + run_id + "_" + sweep_name`, a
function of the wandb run id together with the configuration's sweep name
(injective in that pair, run ids being alphanumeric hence underscore-free),
not of the configuration alone; given the run name (stored in the config as
`results_prefix`), each output path — JSON config, the two model artifacts,
and the two curvature-profile CSVs — is deterministically and injectively
derived from it: within fixed output directories, two runs get the same path
exactly when they have the same run name. -/
theorem C2_run_paths_determined_by_run_name :
    (∀ id₁ id₂ sn₁ sn₂ : String, underscoreFree id₁ = true →
      underscoreFree id₂ = true → runName id₁ sn₁ = runName id₂ sn₂ →
      id₁ = id₂ ∧ sn₁ = sn₂) ∧
    (∀ dir rn₁ rn₂ : String,
      (configJsonPath dir rn₁ = configJsonPath dir rn₂ ↔ rn₁ = rn₂) ∧
      (modelPath dir rn₁ = modelPath dir rn₂ ↔ rn₁ = rn₂) ∧
      (modelStateDictPath dir rn₁ = modelStateDictPath dir rn₂ ↔ rn₁ = rn₂) ∧
      (curvLearnedCsvPath dir rn₁ = curvLearnedCsvPath dir rn₂ ↔ rn₁ = rn₂) ∧
      (curvTrueCsvPath dir rn₁ = curvTrueCsvPath dir rn₂ ↔ rn₁ = rn₂)) := by
  constructor
  · intro id₁ id₂ sn₁ sn₂ hu₁ hu₂ h
    unfold runName at h
    have hd := congrArg String.data h
    simp only [String.data_append, List.append_assoc] at hd
    have h2 := List.append_cancel_left hd
    simp only [show ("_" : String).data = '_' :: ([] : List Char) from rfl,
      List.cons_append, List.nil_append] at h2
    obtain ⟨h3, h4⟩ := splitAtMark id₁.data id₂.data _ _
      (underscoreFree_spec hu₁) (underscoreFree_spec hu₂) h2
    exact ⟨String.ext h3, String.ext h4⟩
  · intro dir rn₁ rn₂
    refine ⟨?_, ?_, ?_, ?_, ?_⟩ <;> constructor <;> intro h
    case mp =>
      unfold configJsonPath at h
      have hd := congrArg String.data h
      simp only [String.data_append, List.append_assoc] at hd
      exact String.ext (List.append_cancel_right
        (List.append_cancel_left (List.append_cancel_left hd)))
    case mpr => rw [h]
    case mp =>
      unfold modelPath at h
      have hd := congrArg String.data h
      simp only [String.data_append, List.append_assoc] at hd
      exact String.ext (List.append_cancel_right
        (List.append_cancel_left (List.append_cancel_left hd)))
    case mpr => rw [h]
    case mp =>
      unfold modelStateDictPath at h
      have hd := congrArg String.data h
      simp only [String.data_append, List.append_assoc] at hd
      exact String.ext (List.append_cancel_right
        (List.append_cancel_left (List.append_cancel_left hd)))
    case mpr => rw [h]
    case mp =>
      unfold curvLearnedCsvPath at h
      have hd := congrArg String.data h
      simp only [String.data_append, List.append_assoc] at hd
      exact String.ext (List.append_cancel_right
        (List.append_cancel_left (List.append_cancel_left hd)))
    case mpr => rw [h]
    case mp =>
      unfold curvTrueCsvPath at h
      have hd := congrArg String.data h
      simp only [String.data_append, List.append_assoc] at hd
      exact String.ext (List.append_cancel_right
        (List.append_cancel_left (List.append_cancel_left hd)))
    case mpr => rw [h]

/-- C2 witness: the run-name injectivity applied at concrete run ids and
sweep names. -/
theorem C2_run_paths_witness :
    ("1a2b3c4d" : String) = "1a2b3c4d" ∧
      ("experimental_expt34_gain_1" : String) = "experimental_expt34_gain_1" :=
  C2_run_paths_determined_by_run_name.1 "1a2b3c4d" "1a2b3c4d"
    "experimental_expt34_gain_1" "experimental_expt34_gain_1"
    (by decide) (by decide) rfl

lemma dropLast_all_of_all {l : List Event} {p : Event → Bool}
    (h : l.all p = true) : (l.dropLast.all p) = true := by
  rw [List.all_eq_true] at h ⊢
  exact fun e he => h e (List.dropLast_subset l he)

lemma dropLast_all_append {l₁ l₂ : List Event} {p : Event → Bool}
    (h₁ : l₁.all p = true) (h₂ : (l₂.dropLast.all p) = true) :
    ((l₁ ++ l₂).dropLast.all p) = true := by
  cases l₂ with
  | nil =>
    simp only [List.append_nil]
    exact dropLast_all_of_all h₁
  | cons b bs =>
    rw [List.dropLast_append_cons, List.all_append]
    simp [h₁, h₂]

lemma all_not_isError_map_sweep {β : Type} (f : β → String) (l : List β) :
    ((l.map fun t => Event.sweep (f t)).all fun e => !e.isError) = true := by
  simp [List.all_eq_true, Event.isError]

lemma hasError_map_sweep {β : Type} (f : β → String) (l : List β) :
    hasError (l.map fun t => Event.sweep (f t)) = false := by
  simp [hasError, List.any_eq_true, Event.isError]

lemma all_not_isError_of_not_hasError {l : List Event}
    (h : hasError l = false) : (l.all fun e => !e.isError) = true := by
  rw [List.all_eq_true]
  intro e he
  simp only [hasError, List.any_eq_false] at h
  simp [h e he]

lemma synTrace_eq (ds : String) (ts : List SynTuple) :
    synTrace ds ts =
      ((ts.takeWhile fun t => !synBadDim ds t).map
        fun t => Event.sweep (synSweepName ds t)) ++
      ((ts.dropWhile fun t => !synBadDim ds t).head?.toList.map
        fun t => Event.valueError (synErrMsg t)) := by
  induction ts with
  | nil => rfl
  | cons t rest ih =>
    by_cases hb : synBadDim ds t = true
    · simp [synTrace, hb, List.takeWhile_cons, List.dropWhile_cons]
    · have hb' : synBadDim ds t = false := by simpa using hb
      simp [synTrace, hb', List.takeWhile_cons, List.dropWhile_cons, ih]

lemma synTrace_dropLast_all (ds : String) (ts : List SynTuple) :
    ((synTrace ds ts).dropLast.all fun e => !e.isError) = true := by
  induction ts with
  | nil => rfl
  | cons t rest ih =>
    by_cases hb : synBadDim ds t = true
    · simp [synTrace, hb]
    · have hb' : synBadDim ds t = false := by simpa using hb
      simp only [synTrace, hb', Bool.false_eq_true, if_false]
      show ((([Event.sweep (synSweepName ds t)] : List Event) ++
          synTrace ds rest).dropLast.all fun e => !e.isError) = true
      exact dropLast_all_append (by simp [Event.isError]) ih

lemma synTrace_hasError (ds : String) (ts : List SynTuple) :
    hasError (synTrace ds ts) = true ↔ ∃ t ∈ ts, synBadDim ds t = true := by
  induction ts with
  | nil => simp [synTrace, hasError]
  | cons t rest ih =>
    by_cases hb : synBadDim ds t = true
    · simp [synTrace, hb, hasError, Event.isError]
    · have hb' : synBadDim ds t = false := by simpa using hb
      simp only [synTrace, hb', Bool.false_eq_true, if_false]
      constructor
      · intro h
        have h2 : hasError (synTrace ds rest) = true := by
          simpa [hasError, Event.isError] using h
        obtain ⟨a, ha, hba⟩ := ih.mp h2
        exact ⟨a, List.mem_cons_of_mem _ ha, hba⟩
      · rintro ⟨a, ha, hba⟩
        rcases List.mem_cons.mp ha with rfl | ha'
        · exact absurd hba hb
        · have h3 := ih.mpr ⟨a, ha', hba⟩
          simpa [hasError, Event.isError] using h3

lemma branchTrace_dropLast_all (cfg : DefaultConfig) (ds : String) :
    ((branchTrace cfg ds).dropLast.all fun e => !e.isError) = true := by
  unfold branchTrace
  split_ifs with h1 h2 h3 h4
  · exact dropLast_all_of_all (all_not_isError_map_sweep _ _)
  · exact synTrace_dropLast_all ds (synTuples cfg)
  · exact dropLast_all_of_all (all_not_isError_map_sweep _ _)
  · rfl
  · rfl

lemma branchTrace_hasError (cfg : DefaultConfig) (ds : String) :
    hasError (branchTrace cfg ds) = true ↔
      ((ds = "s2_synthetic" ∨ ds = "t2_synthetic") ∧
        ∃ t ∈ synTuples cfg, t.embedding_dim ≤ 2) := by
  unfold branchTrace
  split_ifs with h1 h2 h3 h4
  · subst h1
    simp [hasError_map_sweep]
  · rw [synTrace_hasError]
    rcases h2 with h | h | h <;> subst h <;> simp [synBadDim]
  · subst h3
    simp [hasError_map_sweep]
  · subst h4
    simp [hasError, Event.isError]
  · simp only [hasError, List.any_nil]
    constructor
    · intro h
      exact absurd h (by simp)
    · rintro ⟨hds, -⟩
      exact absurd (by tauto : ds = "s1_synthetic" ∨ ds = "s2_synthetic" ∨
        ds = "t2_synthetic") h2

lemma mainGo_dropLast_all (cfg : DefaultConfig) (dss : List String) :
    ((mainGo cfg dss).dropLast.all fun e => !e.isError) = true := by
  induction dss with
  | nil => rfl
  | cons ds rest ih =>
    unfold mainGo
    by_cases he : hasError (branchTrace cfg ds) = true
    · simp only [he, if_true]
      exact branchTrace_dropLast_all cfg ds
    · have he' : hasError (branchTrace cfg ds) = false := by simpa using he
      simp only [he', Bool.false_eq_true, if_false]
      exact dropLast_all_append (all_not_isError_of_not_hasError he') ih

lemma mainGo_hasError (cfg : DefaultConfig) (dss : List String) :
    hasError (mainGo cfg dss) = true ↔
      ∃ ds ∈ dss, hasError (branchTrace cfg ds) = true := by
  induction dss with
  | nil => simp [mainGo, hasError]
  | cons ds rest ih =>
    unfold mainGo
    by_cases he : hasError (branchTrace cfg ds) = true
    · simp only [he, if_true]
      constructor
      · intro _
        exact ⟨ds, List.mem_cons_self _ _, he⟩
      · intro _
        trivial
    · have he' : hasError (branchTrace cfg ds) = false := by simpa using he
      simp only [he', Bool.false_eq_true, if_false]
      rw [show hasError (branchTrace cfg ds ++ mainGo cfg rest) =
          (hasError (branchTrace cfg ds) || hasError (mainGo cfg rest)) from
        List.any_append]
      rw [he', Bool.false_or, ih]
      constructor
      · rintro ⟨a, ha, hba⟩
        exact ⟨a, List.mem_cons_of_mem _ ha, hba⟩
      · rintro ⟨a, ha, hba⟩
        rcases List.mem_cons.mp ha with rfl | ha'
        · exact absurd hba (by simp [he'])
        · exact ⟨a, ha', hba⟩

theorem C3_single_validation_raise :
    (∀ (ds : String) (ts : List SynTuple),
      synTrace ds ts =
        ((ts.takeWhile fun t => !synBadDim ds t).map
          fun t => Event.sweep (synSweepName ds t)) ++
        ((ts.dropWhile fun t => !synBadDim ds t).head?.toList.map
          fun t => Event.valueError (synErrMsg t))) ∧
    (∀ cfg : DefaultConfig,
      ((mainTrace cfg).dropLast.all fun e => !e.isError) = true) ∧
    (∀ cfg : DefaultConfig, hasError (mainTrace cfg) = true ↔
      ((∃ ds ∈ cfg.dataset_name, ds = "s2_synthetic" ∨ ds = "t2_synthetic") ∧
        ∃ t ∈ synTuples cfg, t.embedding_dim ≤ 2)) :=
  ⟨synTrace_eq, fun cfg => mainGo_dropLast_all cfg cfg.dataset_name, fun cfg => by
    rw [mainTrace, mainGo_hasError]
    constructor
    · rintro ⟨ds, hds, herr⟩
      rw [branchTrace_hasError] at herr
      exact ⟨⟨ds, hds, herr.1⟩, herr.2⟩
    · rintro ⟨⟨ds, hds, hds2⟩, hbad⟩
      exact ⟨ds, hds, (branchTrace_hasError cfg ds).mpr ⟨hds2, hbad⟩⟩⟩

theorem C3_single_validation_raise_witness :
    hasError (mainTrace cfgC3) = true :=
  (C3_single_validation_raise.2.2 cfgC3).mpr (by decide)

theorem C4_model_dispatch :
    ∀ (α : Type) (config : Config) (data_dim : Nat) (cuda : Bool)
      (rng : RNGState)
      (train_test : Model → AdamOptimizer → Option PlateauScheduler → Config → α),
    (config.posterior_type = "gaussian" ∨ config.posterior_type = "hyperspherical" →
      create_model_and_train_test config data_dim cuda rng train_test =
        Except.ok (train_test
          (buildModel ModelKind.NeuralVAE config data_dim cuda rng
            (some config.drop_out_p))
          { params_of := buildModel ModelKind.NeuralVAE config data_dim cuda rng
              (some config.drop_out_p), lr := config.lr, amsgrad := true }
          (if config.scheduler then some { mode := "min", factor := 1/2 } else none)
          config)) ∧
    (config.posterior_type = "toroidal" →
      create_model_and_train_test config data_dim cuda rng train_test =
        Except.ok (train_test
          (buildModel ModelKind.ToroidalVAE config data_dim cuda rng none)
          { params_of := buildModel ModelKind.ToroidalVAE config data_dim cuda rng
              none, lr := config.lr, amsgrad := true }
          (if config.scheduler then some { mode := "min", factor := 1/2 } else none)
          config)) ∧
    (config.posterior_type = "klein_bottle" →
      create_model_and_train_test config data_dim cuda rng train_test =
        Except.ok (train_test
          (buildModel ModelKind.KleinBottleVAE config data_dim cuda rng none)
          { params_of := buildModel ModelKind.KleinBottleVAE config data_dim cuda
              rng none, lr := config.lr, amsgrad := true }
          (if config.scheduler then some { mode := "min", factor := 1/2 } else none)
          config)) := by
  intro α config data_dim cuda rng train_test
  refine ⟨?_, ?_, ?_⟩
  · intro h
    unfold create_model_and_train_test selectModel
    rw [if_pos h]
  · intro h
    unfold create_model_and_train_test selectModel
    rw [if_neg (by rw [h]; decide), if_pos h]
  · intro h
    unfold create_model_and_train_test selectModel
    rw [if_neg (by rw [h]; decide), if_neg (by rw [h]; decide), if_pos h]

theorem C4_model_dispatch_witness :
    create_model_and_train_test cfgToroidal 5 true { python := 1, torch := 2, cuda := 3 }
      (fun _ _ _ _ => (0 : Nat)) = Except.ok 0 :=
  (C4_model_dispatch Nat cfgToroidal 5 true { python := 1, torch := 2, cuda := 3 }
    (fun _ _ _ _ => (0 : Nat))).2.1 rfl

theorem C5_seed_reset_determinism :
    ∀ (α : Type) (config : Config) (data_dim : Nat) (cuda : Bool)
      (r₁ r₂ : RNGState)
      (train_test : Model → AdamOptimizer → Option PlateauScheduler → Config → α),
    selectModel config data_dim cuda r₁ = selectModel config data_dim cuda r₂ ∧
    (∀ m : Model, selectModel config data_dim cuda r₁ = some m →
      m.initSeeds = { python := 0, torch := 0,
                      cuda := if cuda then some 0 else none }) ∧
    create_model_and_train_test config data_dim cuda r₁ train_test =
      create_model_and_train_test config data_dim cuda r₂ train_test := by
  intro α config data_dim cuda r₁ r₂ train_test
  have hb : ∀ (kind : ModelKind) (dropOut : Option ℚ),
      buildModel kind config data_dim cuda r₁ dropOut =
        buildModel kind config data_dim cuda r₂ dropOut := by
    intro kind dropOut
    cases cuda <;> simp [buildModel, seedResetZero, snapshotOf]
  have hsel : selectModel config data_dim cuda r₁ =
      selectModel config data_dim cuda r₂ := by
    unfold selectModel
    split_ifs <;> simp [hb]
  refine ⟨hsel, ?_, ?_⟩
  · intro m hm
    unfold selectModel at hm
    split_ifs at hm <;> injection hm with hm' <;> rw [← hm'] <;>
      cases cuda <;> simp [buildModel, seedResetZero, snapshotOf]
  · unfold create_model_and_train_test
    rw [hsel]

theorem C5_seed_reset_determinism_witness :
    (buildModel ModelKind.NeuralVAE cfgGauss 5 true
      { python := 7, torch := 8, cuda := 9 } (some cfgGauss.drop_out_p)).initSeeds =
      { python := 0, torch := 0, cuda := some 0 } :=
  (C5_seed_reset_determinism Nat cfgGauss 5 true
    { python := 7, torch := 8, cuda := 9 } { python := 1, torch := 1, cuda := 1 }
    (fun _ _ _ _ => (0 : Nat))).2.1
    (buildModel ModelKind.NeuralVAE cfgGauss 5 true
      { python := 7, torch := 8, cuda := 9 } (some cfgGauss.drop_out_p)) rfl

theorem C8_unknown_tag_unbound_local :
    ∀ (α : Type) (config : Config) (data_dim : Nat) (cuda : Bool)
      (rng : RNGState)
      (train_test : Model → AdamOptimizer → Option PlateauScheduler → Config → α),
    config.posterior_type ∉
      (["gaussian", "hyperspherical", "toroidal", "klein_bottle"] : List String) →
    selectModel config data_dim cuda rng = none ∧
    create_model_and_train_test config data_dim cuda rng train_test =
      Except.error (PyError.unboundLocal "model") := by
  intro α config data_dim cuda rng train_test h
  simp only [List.mem_cons, List.mem_singleton, not_or] at h
  obtain ⟨h1, h2, h3, h4⟩ := h
  have hsel : selectModel config data_dim cuda rng = none := by
    unfold selectModel
    rw [if_neg (by tauto), if_neg h3, if_neg (by tauto)]
  refine ⟨hsel, ?_⟩
  unfold create_model_and_train_test
  rw [hsel]

theorem C8_unknown_tag_unbound_local_witness :
    selectModel cfgNormal 5 true { python := 1, torch := 2, cuda := 3 } = none ∧
    create_model_and_train_test cfgNormal 5 true { python := 1, torch := 2, cuda := 3 }
      (fun _ _ _ _ => (0 : Nat)) = Except.error (PyError.unboundLocal "model") :=
  C8_unknown_tag_unbound_local Nat cfgNormal 5 true
    { python := 1, torch := 2, cuda := 3 } (fun _ _ _ _ => (0 : Nat)) (by decide)

lemma skdimDimLoop_eq {P M : Type} (pointGen : String → Nat → Nat → Nat → P)
    (mkManifold : Nat → P → Nat → String → ℚ → ℚ → M)
    (fitMean : String → M → ℚ)
    (manifold_type method_name : String) (num_trials num_points num_neurons : Nat)
    (pm rf : ℚ) :
    ∀ (dims : List Nat) (c : Nat),
    skdimDimLoop pointGen mkManifold fitMean manifold_type method_name
        num_trials num_points num_neurons pm rf c dims =
      (skdimRowsSpec pointGen mkManifold fitMean manifold_type method_name
        num_trials num_points num_neurons pm rf c dims,
       c + 2 * dims.length) := by
  intro dims
  induction dims with
  | nil => intro c; simp [skdimDimLoop, skdimRowsSpec]
  | cons d rest ih =>
    intro c
    simp only [skdimDimLoop, skdimRowsSpec, ih (c + 2), List.length_cons]
    rw [Prod.mk.injEq]
    exact ⟨by simp, by omega⟩

lemma skdimMethodLoop_eq {P M : Type} (pointGen : String → Nat → Nat → Nat → P)
    (mkManifold : Nat → P → Nat → String → ℚ → ℚ → M)
    (fitMean : String → M → ℚ)
    (manifold_type : String) (dims : List Nat)
    (num_trials num_points num_neurons : Nat) (pm rf : ℚ) :
    ∀ (ms : List String) (c : Nat),
    skdimMethodLoop pointGen mkManifold fitMean manifold_type dims
        num_trials num_points num_neurons pm rf c ms =
      (skdimAssocSpec pointGen mkManifold fitMean manifold_type dims
        num_trials num_points num_neurons pm rf c ms,
       c + 2 * dims.length * ms.length) := by
  intro ms
  induction ms with
  | nil => intro c; simp [skdimMethodLoop, skdimAssocSpec]
  | cons m rest ih =>
    intro c
    simp only [skdimMethodLoop, skdimAssocSpec,
      skdimDimLoop_eq pointGen mkManifold fitMean manifold_type m num_trials
        num_points num_neurons pm rf dims c,
      ih (c + 2 * dims.length), List.length_cons]
    rw [Prod.mk.injEq]
    exact ⟨rfl, by ring⟩

lemma skdimAssocSpec_map_fst {P M : Type} (pointGen : String → Nat → Nat → Nat → P)
    (mkManifold : Nat → P → Nat → String → ℚ → ℚ → M)
    (fitMean : String → M → ℚ) (manifold_type : String) (dims : List Nat)
    (num_trials num_points num_neurons : Nat) (pm rf : ℚ) :
    ∀ (ms : List String) (c : Nat),
    (skdimAssocSpec pointGen mkManifold fitMean manifold_type dims num_trials
      num_points num_neurons pm rf c ms).map Prod.fst = ms := by
  intro ms
  induction ms with
  | nil => intro c; rfl
  | cons m rest ih =>
    intro c
    simp only [skdimAssocSpec, List.map_cons, ih]

lemma skdimRowsSpec_mem {P M : Type} (pointGen : String → Nat → Nat → Nat → P)
    (mkManifold : Nat → P → Nat → String → ℚ → ℚ → M)
    (fitMean : String → M → ℚ) (manifold_type method_name : String)
    (num_trials num_points num_neurons : Nat) (pm rf : ℚ) :
    ∀ (dims : List Nat) (c : Nat) (row : List ℚ),
    row ∈ skdimRowsSpec pointGen mkManifold fitMean manifold_type method_name
      num_trials num_points num_neurons pm rf c dims →
    ∃ v : ℚ, row = List.replicate num_trials v := by
  intro dims
  induction dims with
  | nil => intro c row h; exact absurd h (List.not_mem_nil _)
  | cons d rest ih =>
    intro c row h
    rcases List.mem_cons.mp h with rfl | h'
    · exact ⟨_, rfl⟩
    · exact ih (c + 2) row h'

lemma skdimRowsSpec_length {P M : Type} (pointGen : String → Nat → Nat → Nat → P)
    (mkManifold : Nat → P → Nat → String → ℚ → ℚ → M)
    (fitMean : String → M → ℚ) (manifold_type method_name : String)
    (num_trials num_points num_neurons : Nat) (pm rf : ℚ) :
    ∀ (dims : List Nat) (c : Nat),
    (skdimRowsSpec pointGen mkManifold fitMean manifold_type method_name
      num_trials num_points num_neurons pm rf c dims).length = dims.length := by
  intro dims
  induction dims with
  | nil => intro c; rfl
  | cons d rest ih =>
    intro c
    simp only [skdimRowsSpec, List.length_cons, ih (c + 2)]

lemma skdimAssocSpec_mem {P M : Type} (pointGen : String → Nat → Nat → Nat → P)
    (mkManifold : Nat → P → Nat → String → ℚ → ℚ → M)
    (fitMean : String → M → ℚ) (manifold_type : String) (dims : List Nat)
    (num_trials num_points num_neurons : Nat) (pm rf : ℚ) :
    ∀ (ms : List String) (c : Nat) (pair : String × List (List ℚ)),
    pair ∈ skdimAssocSpec pointGen mkManifold fitMean manifold_type dims
      num_trials num_points num_neurons pm rf c ms →
    ∃ c' : Nat, pair.2 = skdimRowsSpec pointGen mkManifold fitMean manifold_type
      pair.1 num_trials num_points num_neurons pm rf c' dims := by
  intro ms
  induction ms with
  | nil => intro c pair h; exact absurd h (List.not_mem_nil _)
  | cons m rest ih =>
    intro c pair h
    rcases List.mem_cons.mp h with rfl | h'
    · exact ⟨c, rfl⟩
    · exact ih (c + 2 * dims.length) pair h'

lemma foldl_append_pair {β γ δ : Type} (f : β → γ) (g : β → δ) (l : List β) :
    ∀ acc : List γ × List δ,
    l.foldl (fun acc K => (acc.1 ++ [f K], acc.2 ++ [g K])) acc =
      (acc.1 ++ l.map f, acc.2 ++ l.map g) := by
  induction l with
  | nil => intro acc; simp
  | cons K rest ih =>
    intro acc
    simp only [List.foldl_cons, List.map_cons]
    rw [ih]
    simp

theorem C7_positional_aggregation :
    (∀ (P M : Type) (pointGen : String → Nat → Nat → Nat → P)
       (mkManifold : Nat → P → Nat → String → ℚ → ℚ → M)
       (fitMean : String → M → ℚ) (skdimAll : List String)
       (methods : MethodsArg) (dims : List Nat) (mtype : String)
       (num_trials num_points num_neurons : Nat) (pm rf : ℚ),
      ((skdim_dimension_estimation pointGen mkManifold fitMean skdimAll methods
          dims mtype num_trials num_points num_neurons pm rf).1.map Prod.fst =
        resolveMethods skdimAll methods) ∧
      (∀ pair ∈ (skdim_dimension_estimation pointGen mkManifold fitMean skdimAll
          methods dims mtype num_trials num_points num_neurons pm rf).1,
        pair.2.length = dims.length ∧
          ∀ row ∈ pair.2, row.length = num_trials) ∧
      ((skdim_dimension_estimation pointGen mkManifold fitMean skdimAll methods
          dims mtype num_trials num_points num_neurons pm rf).2 =
        Real.sqrt ((1 / (rf * pm) : ℚ) : ℝ))) ∧
    (∀ (X Y Proj : Type) (r2Of : X → Y → Nat → ℚ) (projOf : X → Y → Nat → Proj)
       (Xv : X) (Yv : Y) (K_values : List Nat),
      evaluate_pls_with_different_K r2Of projOf Xv Yv K_values =
        (K_values.map (r2Of Xv Yv), K_values.map (projOf Xv Yv))) ∧
    (∀ (X Y Proj : Type) (r2Of : X → Y → Nat → ℚ) (projOf : X → Y → Nat → Proj)
       (Xv : X) (Yv : Y) (K_values : List Nat),
      evaluate_PCA_with_different_K r2Of projOf Xv Yv K_values =
        (K_values.map (r2Of Xv Yv), K_values.map (projOf Xv Yv))) := by
  refine ⟨?_, ?_, ?_⟩
  · intro P M pointGen mkManifold fitMean skdimAll methods dims mtype
      num_trials num_points num_neurons pm rf
    have hinstr : skdimInstr pointGen mkManifold fitMean skdimAll methods dims
        mtype num_trials num_points num_neurons pm rf =
        (skdimAssocSpec pointGen mkManifold fitMean mtype dims num_trials
          num_points num_neurons pm rf 0 (resolveMethods skdimAll methods),
         0 + 2 * dims.length * (resolveMethods skdimAll methods).length) := by
      unfold skdimInstr
      exact skdimMethodLoop_eq pointGen mkManifold fitMean mtype dims num_trials
        num_points num_neurons pm rf (resolveMethods skdimAll methods) 0
    refine ⟨?_, ?_, rfl⟩
    · show (skdimInstr pointGen mkManifold fitMean skdimAll methods dims mtype
          num_trials num_points num_neurons pm rf).1.map Prod.fst = _
      rw [hinstr]
      exact skdimAssocSpec_map_fst pointGen mkManifold fitMean mtype dims
        num_trials num_points num_neurons pm rf (resolveMethods skdimAll methods) 0
    · intro pair hpair
      have hpair' : pair ∈ skdimAssocSpec pointGen mkManifold fitMean mtype dims
          num_trials num_points num_neurons pm rf 0
          (resolveMethods skdimAll methods) := by
        have : pair ∈ (skdimInstr pointGen mkManifold fitMean skdimAll methods
            dims mtype num_trials num_points num_neurons pm rf).1 := hpair
        rw [hinstr] at this
        exact this
      obtain ⟨c', hc'⟩ := skdimAssocSpec_mem pointGen mkManifold fitMean mtype
        dims num_trials num_points num_neurons pm rf _ 0 pair hpair'
      constructor
      · rw [hc']
        exact skdimRowsSpec_length pointGen mkManifold fitMean mtype pair.1
          num_trials num_points num_neurons pm rf dims c'
      · intro row hrow
        rw [hc'] at hrow
        obtain ⟨v, hv⟩ := skdimRowsSpec_mem pointGen mkManifold fitMean mtype
          pair.1 num_trials num_points num_neurons pm rf dims c' row hrow
        rw [hv, List.length_replicate]
  · intro X Y Proj r2Of projOf Xv Yv K_values
    unfold evaluate_pls_with_different_K
    rw [foldl_append_pair]
    simp
  · intro X Y Proj r2Of projOf Xv Yv K_values
    unfold evaluate_PCA_with_different_K
    rw [foldl_append_pair]
    simp

theorem C7_positional_aggregation_witness :
    (([[(0 : ℚ), 0], [0, 0]] : List (List ℚ)).length = ([2, 3] : List Nat).length ∧
      ∀ row ∈ ([[(0 : ℚ), 0], [0, 0]] : List (List ℚ)), row.length = 2) :=
  (C7_positional_aggregation.1 Nat Nat (fun _ c _ _ => c) (fun c _ _ _ _ _ => c)
    (fun _ _ => 0) [] (MethodsArg.list ["lPCA"]) [2, 3] "hypersphere" 2 10 5
    1 200).2.1 ("lPCA", [[0, 0], [0, 0]]) (by decide)

theorem C9_data_generated_once_outside_trial_loop :
    ∀ (P M : Type) (pointGen : String → Nat → Nat → Nat → P)
      (mkManifold : Nat → P → Nat → String → ℚ → ℚ → M)
      (fitMean : String → M → ℚ) (skdimAll : List String)
      (methods : MethodsArg) (dims : List Nat) (mtype : String)
      (num_trials num_points num_neurons : Nat) (pm rf : ℚ),
    (skdimInstr pointGen mkManifold fitMean skdimAll methods dims mtype
        num_trials num_points num_neurons pm rf =
      (skdimAssocSpec pointGen mkManifold fitMean mtype dims num_trials
        num_points num_neurons pm rf 0 (resolveMethods skdimAll methods),
       2 * dims.length * (resolveMethods skdimAll methods).length)) ∧
    (∀ pair ∈ (skdimInstr pointGen mkManifold fitMean skdimAll methods dims
        mtype num_trials num_points num_neurons pm rf).1,
      ∀ row ∈ pair.2, ∃ v : ℚ, row = List.replicate num_trials v) := by
  intro P M pointGen mkManifold fitMean skdimAll methods dims mtype
    num_trials num_points num_neurons pm rf
  have hinstr : skdimInstr pointGen mkManifold fitMean skdimAll methods dims
      mtype num_trials num_points num_neurons pm rf =
      (skdimAssocSpec pointGen mkManifold fitMean mtype dims num_trials
        num_points num_neurons pm rf 0 (resolveMethods skdimAll methods),
       0 + 2 * dims.length * (resolveMethods skdimAll methods).length) := by
    unfold skdimInstr
    exact skdimMethodLoop_eq pointGen mkManifold fitMean mtype dims num_trials
      num_points num_neurons pm rf (resolveMethods skdimAll methods) 0
  constructor
  · rw [hinstr, Nat.zero_add]
  · intro pair hpair row hrow
    rw [hinstr] at hpair
    obtain ⟨c', hc'⟩ := skdimAssocSpec_mem pointGen mkManifold fitMean mtype
      dims num_trials num_points num_neurons pm rf _ 0 pair hpair
    rw [hc'] at hrow
    exact skdimRowsSpec_mem pointGen mkManifold fitMean mtype pair.1 num_trials
      num_points num_neurons pm rf dims c' row hrow

theorem C9_data_generated_once_witness :
    ∃ v : ℚ, ([0, 0] : List ℚ) = List.replicate 2 v :=
  (C9_data_generated_once_outside_trial_loop Nat Nat (fun _ c _ _ => c)
    (fun c _ _ _ _ _ => c) (fun _ _ => 0) [] (MethodsArg.list ["lPCA"]) [2, 3]
    "hypersphere" 2 10 5 1 200).2 ("lPCA", [[0, 0], [0, 0]]) (by decide)
    [0, 0] (by decide)

theorem C10_empty_selection_sentinel :
    (∀ (labels : List LabelRow) (z : ℚ),
      (labels.filter fun r => windowSel z r.angles) = [] →
      velocityStatsAt labels z =
        { mean := none, median := none, std := none, min := -1, max := -1 }) ∧
    (∀ (labels : List LabelRow) (z : ℚ),
      (labels.filter fun r => windowSel z r.angles) = [] →
      velocityCols labels [z] =
        [("mean_velocities", [none]), ("median_velocities", [none]),
         ("std_velocities", [none]),
         ("min_velocities", [some (((-1 : ℚ) : ℝ))]),
         ("max_velocities", [some (((-1 : ℚ) : ℝ))])]) := by
  have key : ∀ (labels : List LabelRow) (z : ℚ),
      (labels.filter fun r => windowSel z r.angles) = [] →
      velocityStatsAt labels z =
        { mean := none, median := none, std := none, min := -1, max := -1 } := by
    intro labels z h
    unfold velocityStatsAt
    rw [h]
    rfl
  refine ⟨key, ?_⟩
  intro labels z h
  simp [velocityCols, key labels z h]

theorem C10_empty_selection_sentinel_witness :
    velocityStatsAt [] 0 =
      { mean := none, median := none, std := none, min := -1, max := -1 } :=
  C10_empty_selection_sentinel.1 [] 0 rfl

lemma velocityCols_all_length (labels : List LabelRow) (z1 : List ℚ) (n : Nat)
    (hz1 : z1.length = n) :
    ((velocityCols labels z1).all fun col => col.2.length == n) = true := by
  simp [velocityCols, hz1]

theorem C6_curvature_profile_persistence :
    ∀ (dir rn : String) (geo curv z1 : List ℚ) (z2 : List (ℚ × ℚ))
      (labels : List LabelRow) (geoT curvT z1T : List ℚ) (z2T : List (ℚ × ℚ))
      (n m : Nat),
    geo.length = n → curv.length = n → z1.length = n → z2.length = n →
    geoT.length = m → curvT.length = m → z1T.length = m → z2T.length = m →
    (∀ ds, ds = "experimental" ∨ ds = "grid_cells" ∨
        ds = "three_place_cells_synthetic" →
      (curvature_compute_plot_log dir rn ds geo curv z1 z2 labels geoT curvT z1T
        z2T).map Prod.fst = [curvLearnedCsvPath dir rn]) ∧
    (∀ ds, ds = "s1_synthetic" ∨ ds = "s2_synthetic" ∨ ds = "t2_synthetic" →
      (curvature_compute_plot_log dir rn ds geo curv z1 z2 labels geoT curvT z1T
        z2T).map Prod.fst =
        [curvLearnedCsvPath dir rn, curvTrueCsvPath dir rn]) ∧
    (∀ ds, ds = "s1_synthetic" ∨ ds = "three_place_cells_synthetic" →
      (curvNormLearnedProfile ds geo curv z1 z2 labels).map Prod.fst =
        ["geodesic_dist", "curv_norm_learned", "z_grid"]) ∧
    ((curvNormLearnedProfile "experimental" geo curv z1 z2 labels).map Prod.fst =
      ["geodesic_dist", "curv_norm_learned", "z_grid", "mean_velocities",
       "median_velocities", "std_velocities", "min_velocities",
       "max_velocities"]) ∧
    (∀ ds, ds = "s2_synthetic" ∨ ds = "t2_synthetic" ∨ ds = "grid_cells" →
      (curvNormLearnedProfile ds geo curv z1 z2 labels).map Prod.fst =
        ["geodesic_dist", "curv_norm_learned", "z_grid_theta", "z_grid_phi"]) ∧
    ((curvNormTrueProfile "s1_synthetic" geoT curvT z1T z2T).map Prod.fst =
      ["geodesic_dist", "curv_norm_true", "z_grid"]) ∧
    (∀ ds, ds = "s2_synthetic" ∨ ds = "t2_synthetic" →
      (curvNormTrueProfile ds geoT curvT z1T z2T).map Prod.fst =
        ["geodesic_dist", "curv_norm_true", "z_grid_theta", "z_grid_phi"]) ∧
    (∀ ds, ((curvNormLearnedProfile ds geo curv z1 z2 labels).all
      fun col => col.2.length == n) = true) ∧
    (∀ ds, ((curvNormTrueProfile ds geoT curvT z1T z2T).all
      fun col => col.2.length == m) = true) := by
  intro dir rn geo curv z1 z2 labels geoT curvT z1T z2T n m
  intro hgeo hcurv hz1 hz2 hgeoT hcurvT hz1T hz2T
  refine ⟨?_, ?_, ?_, ?_, ?_, ?_, ?_, ?_, ?_⟩
  · intro ds h
    rcases h with rfl | rfl | rfl <;>
      simp [curvature_compute_plot_log, curvLearnedCsvPath]
  · intro ds h
    rcases h with rfl | rfl | rfl <;>
      simp [curvature_compute_plot_log, curvLearnedCsvPath, curvTrueCsvPath]
  · intro ds h
    rcases h with rfl | rfl <;> simp [curvNormLearnedProfile]
  · simp [curvNormLearnedProfile, velocityCols]
  · intro ds h
    rcases h with rfl | rfl | rfl <;> simp [curvNormLearnedProfile]
  · simp [curvNormTrueProfile]
  · intro ds h
    rcases h with rfl | rfl <;> simp [curvNormTrueProfile]
  · intro ds
    unfold curvNormLearnedProfile
    rw [List.all_append, List.all_append]
    have hbase : (([("geodesic_dist", cellsOfQ geo),
        ("curv_norm_learned", cellsOfQ curv)]).all
          fun col => col.2.length == n) = true := by
      simp [cellsOfQ, hgeo, hcurv]
    rw [hbase]
    split_ifs <;> simp [cellsOfQ, hz1, hz2, velocityCols_all_length labels z1 n hz1]
  · intro ds
    unfold curvNormTrueProfile
    rw [List.all_append]
    have hbase : (([("geodesic_dist", cellsOfQ geoT),
        ("curv_norm_true", cellsOfQ curvT)]).all
          fun col => col.2.length == m) = true := by
      simp [cellsOfQ, hgeoT, hcurvT]
    rw [hbase]
    split_ifs <;> simp [cellsOfQ, hz1T, hz2T]

theorem C6_curvature_profile_witness :
    (curvature_compute_plot_log "profiles" "run1" "s1_synthetic" [0] [0] [0]
      [(0, 0)] [] [0] [0] [0] [(0, 0)]).map Prod.fst =
      [curvLearnedCsvPath "profiles" "run1", curvTrueCsvPath "profiles" "run1"] :=
  (C6_curvature_profile_persistence "profiles" "run1" [0] [0] [0] [(0, 0)] []
    [0] [0] [0] [(0, 0)] 1 1 rfl rfl rfl rfl rfl rfl rfl rfl).2.1
    "s1_synthetic" (Or.inl rfl)
